import Mathlib

/-!
Shallow embedding of the SentinelFS relay server (`src/relay/relay_server.py`).

Byte strings (peer ids, session codes, IPs, payloads) are modelled as
`List Nat`; stream writers are opaque `Nat` handles.  Python dictionaries
become association lists, Python sets become duplicate-free lists.
Exceptions raised while parsing become `Except` values; Python's clamping
slice semantics is `pySlice`.  Socket writes issued by a handler are
returned as a list of `(writer handle, frame bytes)` pairs; the success of
the single relay write that guards a stats update is an explicit `writeOk`
parameter.  Wall-clock reads are explicit `nowMs` / `nowS` parameters.
-/

abbrev Bytes := List Nat

/-- Python `payload[i]` on a byte string: raises `IndexError` out of range. -/
def pyGet (l : Bytes) (i : Nat) : Except Bytes Nat :=
  match l.get? i with
  | some b => Except.ok b
  | none => Except.error ixMsg
where
  /-- ASCII bytes of the `IndexError` message `"index out of range"`. -/
  ixMsg : Bytes := [105, 110, 100, 101, 120, 32, 111, 117, 116, 32, 111, 102, 32, 114, 97, 110, 103, 101]

/-- Python `l[s : s + n]`: slices clamp instead of raising. -/
def pySlice (l : Bytes) (s n : Nat) : Bytes :=
  (l.drop s).take n

/-- `struct.pack('!H', n)`: 2-byte big-endian. -/
def be16 (n : Nat) : Bytes := [n / 256 % 256, n % 256]

/-- `struct.pack('!I', n)`: 4-byte big-endian. -/
def be32 (n : Nat) : Bytes :=
  [n / 16777216 % 256, n / 65536 % 256, n / 256 % 256, n % 256]

/-- `struct.pack('!Q', n)`: 8-byte big-endian. -/
def be64 (n : Nat) : Bytes :=
  [n / 72057594037927936 % 256, n / 281474976710656 % 256,
   n / 1099511627776 % 256, n / 4294967296 % 256,
   n / 16777216 % 256, n / 65536 % 256, n / 256 % 256, n % 256]

/-- `_make_message`: 1-byte type, 4-byte big-endian payload length, payload. -/
def make_message (t : Nat) (p : Bytes) : Bytes :=
  t :: (be32 p.length ++ p)

/-- The twelve valid `MessageType` codes; `MessageType(b)` raises otherwise. -/
def valid_type (t : Nat) : Bool :=
  (1 ≤ t && t ≤ 8) || (16 ≤ t && t ≤ 18) || t == 255

/-- NAT classification stored in a peer record. -/
inductive NatType where
  | unknown
  | cone
  | symmetric
deriving DecidableEq

/-- The `PeerInfo` dataclass. -/
structure PeerInfo where
  peer_id : Bytes
  session_code : Bytes
  writer : Nat
  public_ip : Bytes
  public_port : Nat
  private_ip : Bytes
  private_port : Nat
  connected_at : Nat
  last_heartbeat : Nat
  nat_type : NatType
  relayed_bytes : Nat
deriving DecidableEq

/-- The server's shared mutable state: the two indices and the stats counters. -/
structure ServerState where
  peers : List (Bytes × PeerInfo)
  sessions : List (Bytes × List Bytes)
  total_connections : Nat
  total_bytes_relayed : Nat
  total_introductions : Nat
  active_sessions : Nat
deriving DecidableEq

/-- Dictionary lookup on an association list. -/
def lookupA {α : Type} (m : List (Bytes × α)) (k : Bytes) : Option α :=
  match m with
  | [] => none
  | (k', v) :: rest => if k' = k then some v else lookupA rest k

/-- Dictionary assignment `m[k] = v`. -/
def insertA {α : Type} (m : List (Bytes × α)) (k : Bytes) (v : α) : List (Bytes × α) :=
  match m with
  | [] => [(k, v)]
  | (k', v') :: rest => if k' = k then (k, v) :: rest else (k', v') :: insertA rest k v

/-- Dictionary deletion `del m[k]`. -/
def eraseA {α : Type} (m : List (Bytes × α)) (k : Bytes) : List (Bytes × α) :=
  m.filter (fun kv => kv.1 ≠ k)

/-- In-place mutation of the record stored under `k`, if present. -/
def updatePeer (m : List (Bytes × PeerInfo)) (k : Bytes) (f : PeerInfo → PeerInfo) :
    List (Bytes × PeerInfo) :=
  match m with
  | [] => []
  | (k', v) :: rest =>
    if k' = k then (k', f v) :: updatePeer rest k f
    else (k', v) :: updatePeer rest k f

/-- Python `set.add`. -/
def set_add (s : List Bytes) (x : Bytes) : List Bytes :=
  if x ∈ s then s else s ++ [x]

/-- Python `set.discard`. -/
def set_discard (s : List Bytes) (x : Bytes) : List Bytes :=
  s.filter (fun y => y ≠ x)

/-- The REGISTER payload parser of `_handle_register`, with the source's
exact offset arithmetic and guard conditions.  Returns
`(peer_id, session_code, private_ip, private_port)` or the exception
message. -/
def parse_register (payload : Bytes) : Except Bytes (Bytes × Bytes × Bytes × Nat) :=
  match pyGet payload 0 with
  | Except.error e => Except.error e
  | Except.ok pidLen =>
    let pid := pySlice payload 1 pidLen
    match pyGet payload (1 + pidLen) with
    | Except.error e => Except.error e
    | Except.ok scLen =>
      let sc := pySlice payload (1 + pidLen + 1) scLen
      if 1 + pidLen + 1 + scLen < payload.length then
        if payload.length > 1 + pidLen + 1 + scLen then
          match pyGet payload (1 + pidLen + 1 + scLen) with
          | Except.error e => Except.error e
          | Except.ok pipLen =>
            let pip := pySlice payload (1 + pidLen + 1 + scLen + 1) pipLen
            if payload.length ≥ 1 + pidLen + 1 + scLen + 1 + pipLen + 2 then
              match pyGet payload (1 + pidLen + 1 + scLen + 1 + pipLen),
                  pyGet payload (1 + pidLen + 1 + scLen + 1 + pipLen + 1) with
              | Except.ok hi, Except.ok lo => Except.ok (pid, sc, pip, hi * 256 + lo)
              | Except.error e, _ => Except.error e
              | _, Except.error e => Except.error e
            else Except.ok (pid, sc, pip, 0)
        else Except.ok (pid, sc, [], 0)
      else Except.ok (pid, sc, [], 0)

/-- The registry mutation performed inside the lock by `_handle_register`:
displace any old registration of `pid` from its former session set (without
deleting that set even when it becomes empty), store the new record, add
`pid` to its session group, refresh `active_sessions`. -/
def register_state (st : ServerState) (pid sc : Bytes) (info : PeerInfo) : ServerState :=
  let sessions1 :=
    match lookupA st.peers pid with
    | some old =>
      match lookupA st.sessions old.session_code with
      | some s => insertA st.sessions old.session_code (set_discard s pid)
      | none => st.sessions
    | none => st.sessions
  let peers1 := insertA st.peers pid info
  let sset := (lookupA sessions1 sc).getD []
  let sessions2 := insertA sessions1 sc (set_add sset pid)
  { st with peers := peers1, sessions := sessions2, active_sessions := sessions2.length }

/-- One serialized descriptor of the PEER_LIST wire format:
`peer_id_len | peer_id | ip_len | ip | port(2B, BE)`. -/
def peer_entry (pid ip : Bytes) (port : Nat) : Bytes :=
  pid.length :: pid ++ ip.length :: ip ++ be16 port

/-- `_notify_session_peers`: PEER_LIST (count = 1) frames pushed to every
other member of the new peer's session. -/
def notify_session_peers (st : ServerState) (sc newPid : Bytes) (info : PeerInfo) :
    List (Nat × Bytes) :=
  ((lookupA st.sessions sc).getD []).filterMap (fun pid =>
    if pid ≠ newPid then
      match lookupA st.peers pid with
      | some p => some (p.writer, make_message 3 (1 :: peer_entry newPid info.public_ip info.public_port))
      | none => none
    else none)

/-- Result of `_handle_register` as observed by `_handle_client`: new state,
reply frame, the peer id the connection becomes bound to (`[]`, i.e. the
falsy `""`, on failure), and the notification writes. -/
structure RegResult where
  st : ServerState
  reply : Bytes
  bound : Bytes
  sends : List (Nat × Bytes)
deriving DecidableEq

/-- ASCII bytes of `"OK"`. -/
def okMsg : Bytes := [79, 75]

/-- ASCII bytes of `"Peer not found"`. -/
def errPeerNotFound : Bytes := [80, 101, 101, 114, 32, 110, 111, 116, 32, 102, 111, 117, 110, 100]

/-- ASCII bytes of `"Not registered"`. -/
def errNotRegistered : Bytes := [78, 111, 116, 32, 114, 101, 103, 105, 115, 116, 101, 114, 101, 100]

/-- ASCII bytes of `"Session mismatch"`. -/
def errSessionMismatch : Bytes := [83, 101, 115, 115, 105, 111, 110, 32, 109, 105, 115, 109, 97, 116, 99, 104]

/-- `_handle_register`: parse, mutate the registry, ACK and notify; on a
parse exception reply ERROR with the exception message and leave every
index untouched. -/
def handle_register (st : ServerState) (payload : Bytes) (writer : Nat) (ip : Bytes)
    (port : Nat) (nowS : Nat) : RegResult :=
  match parse_register payload with
  | Except.error e => ⟨st, make_message 255 e, [], []⟩
  | Except.ok (pid, sc, pip, pport) =>
    let info : PeerInfo :=
      ⟨pid, sc, writer, ip, port, pip, pport, nowS, nowS, NatType.unknown, 0⟩
    let st' := register_state st pid sc info
    ⟨st', make_message 2 okMsg, pid, notify_session_peers st' sc pid info⟩

/-- The `peers_data` list built by `_handle_peer_list`: the records of every
id in the requester's session set other than the requester itself. -/
def peer_list_entries (st : ServerState) (requester sc : Bytes) : List PeerInfo :=
  ((lookupA st.sessions sc).getD []).filterMap (fun pid =>
    if pid ≠ requester then lookupA st.peers pid else none)

/-- `_handle_peer_list`: serialize the session mates, or ERROR when the
requester has no record. -/
def handle_peer_list (st : ServerState) (requester : Bytes) : Bytes :=
  match lookupA st.peers requester with
  | none => make_message 255 errNotRegistered
  | some me =>
    let ps := peer_list_entries st requester me.session_code
    make_message 3 (ps.length ::
      ps.foldl (fun acc p => acc ++ peer_entry p.peer_id p.public_ip p.public_port) [])

/-- The forwarding tail of `_handle_relay_data`: build the relay frame and,
when the write succeeds, bump the global and per-peer byte counters. -/
def relay_forward (st : ServerState) (sender data : Bytes) (tp : PeerInfo) (writeOk : Bool) :
    ServerState × List (Nat × Bytes) :=
  let msg := make_message 6 (sender.length :: sender ++ data)
  if writeOk then
    ({ st with
        total_bytes_relayed := st.total_bytes_relayed + data.length,
        peers := updatePeer st.peers sender
          (fun p => { p with relayed_bytes := p.relayed_bytes + data.length }) },
      [(tp.writer, msg)])
  else (st, [])

/-- `_handle_relay_data`: parse `target_id_len | target_id | data`, drop
silently when the target is absent or the sender's recorded session differs
from the target's, otherwise forward. -/
def handle_relay_data (st : ServerState) (sender payload : Bytes) (writeOk : Bool) :
    ServerState × List (Nat × Bytes) :=
  match pyGet payload 0 with
  | Except.error _ => (st, [])
  | Except.ok tlen =>
    let target := pySlice payload 1 tlen
    let data := payload.drop (1 + tlen)
    match lookupA st.peers target with
    | none => (st, [])
    | some tp =>
      match lookupA st.peers sender with
      | some fp =>
        if fp.session_code ≠ tp.session_code then (st, [])
        else relay_forward st sender data tp writeOk
      | none => relay_forward st sender data tp writeOk

/-- Endpoint descriptor used by CONNECT / CONNECT_ACK:
`id_len | id | ip_len | ip | port(2B)` plus the private endpoint when the
record's private ip is non-empty. -/
def endpoint_desc (pid : Bytes) (p : PeerInfo) : Bytes :=
  pid.length :: pid ++ p.public_ip.length :: p.public_ip ++ be16 p.public_port ++
    (if p.private_ip = [] then []
     else p.private_ip.length :: p.private_ip ++ be16 p.private_port)

/-- Result of a handler that replies on the requester's connection and may
push frames to other connections. -/
structure ConnResult where
  st : ServerState
  reply : Bytes
  sends : List (Nat × Bytes)
deriving DecidableEq

/-- `_handle_connect_request`: the three ERROR guards, then a CONNECT frame
describing the requester to the target, a CONNECT_ACK describing the target
to the requester, and one more introduction counted. -/
def handle_connect_request (st : ServerState) (sender payload : Bytes) : ConnResult :=
  match pyGet payload 0 with
  | Except.error e => ⟨st, make_message 255 e, []⟩
  | Except.ok tlen =>
    let target := pySlice payload 1 tlen
    match lookupA st.peers target with
    | none => ⟨st, make_message 255 errPeerNotFound, []⟩
    | some tp =>
      match lookupA st.peers sender with
      | none => ⟨st, make_message 255 errNotRegistered, []⟩
      | some fp =>
        if fp.session_code ≠ tp.session_code then
          ⟨st, make_message 255 errSessionMismatch, []⟩
        else
          ⟨{ st with total_introductions := st.total_introductions + 1 },
            make_message 5 (endpoint_desc target tp),
            [(tp.writer, make_message 4 (endpoint_desc sender fp))]⟩

/-- PUNCH_SYNC payload: 8-byte punch time, then the other peer's public
endpoint. -/
def punch_sync_payload (t : Nat) (p : PeerInfo) : Bytes :=
  be64 t ++ p.public_ip.length :: p.public_ip ++ be16 p.public_port

/-- `_handle_punch_request`: existence guards only (no session comparison in
the source); PUNCH_SYNC to both sides with `now_ms + 500`. -/
def handle_punch_request (st : ServerState) (sender payload : Bytes) (nowMs : Nat) : ConnResult :=
  match pyGet payload 0 with
  | Except.error e => ⟨st, make_message 255 e, []⟩
  | Except.ok tlen =>
    let target := pySlice payload 1 tlen
    match lookupA st.peers target with
    | none => ⟨st, make_message 255 errPeerNotFound, []⟩
    | some tp =>
      match lookupA st.peers sender with
      | none => ⟨st, make_message 255 errNotRegistered, []⟩
      | some fp =>
        let pt := nowMs + 500
        ⟨st, make_message 17 (punch_sync_payload pt tp),
          [(tp.writer, make_message 17 (punch_sync_payload pt fp))]⟩

/-- `_update_heartbeat`. -/
def update_heartbeat (st : ServerState) (pid : Bytes) (nowS : Nat) : ServerState :=
  { st with peers := updatePeer st.peers pid (fun p => { p with last_heartbeat := nowS }) }

/-- `_update_external_addr`: classify NAT from the reported ip; a short
payload makes `struct.unpack` raise before any mutation. -/
def handle_external_addr (st : ServerState) (pid payload : Bytes) : ServerState :=
  match pyGet payload 0 with
  | Except.error _ => st
  | Except.ok ipLen =>
    let eip := pySlice payload 1 ipLen
    if payload.length < 3 + ipLen then st
    else
      { st with peers := updatePeer st.peers pid (fun p =>
          { p with nat_type := if eip ≠ p.public_ip then NatType.symmetric else NatType.cone }) }

/-- DISCONNECT notification frame naming the departed peer. -/
def disconnect_frame (pid : Bytes) : Bytes :=
  make_message 8 (pid.length :: pid)

/-- `_remove_peer`: drop the peer from its session set, delete the set when
it empties, notify the surviving session mates, delete the record. -/
def remove_peer (st : ServerState) (pid : Bytes) : ServerState × List (Nat × Bytes) :=
  match lookupA st.peers pid with
  | none => (st, [])
  | some peer =>
    let sc := peer.session_code
    let sessions1 :=
      match lookupA st.sessions sc with
      | some s =>
        let s' := set_discard s pid
        if s' = [] then eraseA st.sessions sc else insertA st.sessions sc s'
      | none => st.sessions
    let sends := ((lookupA sessions1 sc).getD []).filterMap (fun oid =>
      match lookupA st.peers oid with
      | some op => some (op.writer, disconnect_frame pid)
      | none => none)
    let peers1 := eraseA st.peers pid
    ({ st with peers := peers1, sessions := sessions1, active_sessions := sessions1.length },
      sends)

/-- What one loop iteration of `_handle_client` leaves behind after
dispatching a frame: the state, the (possibly re-bound) connection
identity, the reply written back on this connection, and the frames pushed
to other connections. -/
structure HandleResult where
  st : ServerState
  bound : Bytes
  reply : Option Bytes
  sends : List (Nat × Bytes)
deriving DecidableEq

/-- `_handle_message`: dispatch on the type code.  `bound = []` models the
falsy `peer_id` of a connection that has not (successfully) registered; all
non-REGISTER branches are guarded by it. -/
def handle_message (st : ServerState) (bound : Bytes) (t : Nat) (payload : Bytes)
    (writer : Nat) (ip : Bytes) (port : Nat) (writeOk : Bool) (nowMs nowS : Nat) :
    HandleResult :=
  if t = 1 then
    let r := handle_register st payload writer ip port nowS
    ⟨r.st, r.bound, some r.reply, r.sends⟩
  else if t = 3 then
    if bound ≠ [] then ⟨st, bound, some (handle_peer_list st bound), []⟩
    else ⟨st, bound, none, []⟩
  else if t = 6 then
    if bound ≠ [] then
      let r := handle_relay_data st bound payload writeOk
      ⟨r.1, bound, none, r.2⟩
    else ⟨st, bound, none, []⟩
  else if t = 7 then
    if bound ≠ [] then ⟨update_heartbeat st bound nowS, bound, some (make_message 7 []), []⟩
    else ⟨st, bound, none, []⟩
  else if t = 4 then
    if bound ≠ [] then
      let r := handle_connect_request st bound payload
      ⟨r.st, bound, some r.reply, r.sends⟩
    else ⟨st, bound, none, []⟩
  else if t = 16 then
    if bound ≠ [] then
      let r := handle_punch_request st bound payload nowMs
      ⟨r.st, bound, some r.reply, r.sends⟩
    else ⟨st, bound, none, []⟩
  else if t = 18 then
    if bound ≠ [] then ⟨handle_external_addr st bound payload, bound, none, []⟩
    else ⟨st, bound, none, []⟩
  else ⟨st, bound, none, []⟩

/-- Outcome of one read-loop iteration of `_handle_client`: either the
connection is terminated (an invalid type code raised, or the length field
exceeded the cap — the loop breaks, nothing is written back), or the frame
was dispatched. -/
inductive FrameOutcome where
  | closed
  | ok (r : HandleResult)
deriving DecidableEq

/-- One iteration of the `_handle_client` read loop, given the decoded
header fields and the payload `readexactly` would return. -/
def client_step (st : ServerState) (bound : Bytes) (t len : Nat) (payload : Bytes)
    (writer : Nat) (ip : Bytes) (port : Nat) (writeOk : Bool) (nowMs nowS : Nat) :
    FrameOutcome :=
  if valid_type t = false then FrameOutcome.closed
  else if len > 10 * 1024 * 1024 then FrameOutcome.closed
  else FrameOutcome.ok (handle_message st bound t payload writer ip port writeOk nowMs nowS)

/-- Frame decoding as performed by the read loop: 5-byte header, type-code
validation, the 10 MiB cap, then exactly `length` payload bytes. -/
def decode_frame (b : Bytes) : Option (Nat × Bytes) :=
  match b with
  | t :: a3 :: a2 :: a1 :: a0 :: rest =>
    if valid_type t then
      let len := ((a3 * 256 + a2) * 256 + a1) * 256 + a0
      if len > 10 * 1024 * 1024 then none
      else if rest.length < len then none
      else some (t, rest.take len)
    else none
  | _ => none

/-! ## Helper lemmas -/

theorem pyGet_cons_zero (x : Nat) (l : Bytes) : pyGet (x :: l) 0 = Except.ok x := rfl

theorem pyGet_concat (pre : Bytes) (x : Nat) (post : Bytes) {i : Nat} (h : pre.length = i) :
    pyGet (pre ++ x :: post) i = Except.ok x := by
  subst h
  induction pre with
  | nil => rfl
  | cons a l ih => simpa [pyGet, List.get?] using ih

theorem pySlice_concat (pre mid post : Bytes) {s n : Nat} (hs : pre.length = s)
    (hn : mid.length = n) : pySlice (pre ++ (mid ++ post)) s n = mid := by
  unfold pySlice
  rw [List.drop_left' hs, List.take_left' hn]

theorem pySlice_concat_nil (pre mid : Bytes) {s n : Nat} (hs : pre.length = s)
    (hn : mid.length = n) : pySlice (pre ++ mid) s n = mid := by
  have := pySlice_concat pre mid [] hs hn
  simpa using this

theorem lookupA_insertA_self {α : Type} (m : List (Bytes × α)) (k : Bytes) (v : α) :
    lookupA (insertA m k v) k = some v := by
  induction m with
  | nil => simp [insertA, lookupA]
  | cons kv rest ih =>
    obtain ⟨k', v'⟩ := kv
    by_cases h : k' = k
    · simp [insertA, h, lookupA]
    · simp [insertA, h, lookupA, ih]

theorem lookupA_insertA_ne {α : Type} (m : List (Bytes × α)) (k k' : Bytes) (v : α)
    (h : k' ≠ k) : lookupA (insertA m k v) k' = lookupA m k' := by
  have hk : ¬(k = k') := fun hh => h hh.symm
  induction m with
  | nil => simp [insertA, lookupA, hk]
  | cons kv rest ih =>
    obtain ⟨k₀, v₀⟩ := kv
    by_cases h0 : k₀ = k
    · subst h0
      simp [insertA, lookupA, hk]
    · simp only [insertA, if_neg h0, lookupA]
      by_cases h1 : k₀ = k'
      · simp [h1]
      · simp [h1, ih]

theorem lookupA_eraseA_self {α : Type} (m : List (Bytes × α)) (k : Bytes) :
    lookupA (eraseA m k) k = none := by
  induction m with
  | nil => simp [eraseA, lookupA]
  | cons kv rest ih =>
    obtain ⟨k', v'⟩ := kv
    by_cases h : k' = k
    · simpa [eraseA, h, lookupA] using ih
    · simpa [eraseA, h, lookupA] using ih

theorem lookupA_updatePeer_self (m : List (Bytes × PeerInfo)) (k : Bytes)
    (f : PeerInfo → PeerInfo) :
    lookupA (updatePeer m k f) k = (lookupA m k).map f := by
  induction m with
  | nil => simp [updatePeer, lookupA]
  | cons kv rest ih =>
    obtain ⟨k', v'⟩ := kv
    by_cases h : k' = k
    · subst h
      simp [updatePeer, lookupA]
    · simp [updatePeer, lookupA, h, ih]

theorem mem_set_add_of_mem {s : List Bytes} {x : Bytes} (y : Bytes) (h : x ∈ s) :
    x ∈ set_add s y := by
  unfold set_add
  split
  · exact h
  · exact List.mem_append_left _ h

theorem target_payload_parts (target data : Bytes) :
    pyGet (target.length :: (target ++ data)) 0 = Except.ok target.length
    ∧ pySlice (target.length :: (target ++ data)) 1 target.length = target
    ∧ (target.length :: (target ++ data)).drop (1 + target.length) = data := by
  refine ⟨rfl, ?_, ?_⟩
  · exact pySlice_concat [target.length] target data rfl rfl
  · have h : (target.length :: target : Bytes).length = 1 + target.length := by
      simp [Nat.add_comm]
    have e : target.length :: (target ++ data) = (target.length :: target) ++ data := by simp
    rw [e, List.drop_left' h]

/-! ## C9 -/

/-- C9: for every known message type and payload no longer than 10 MiB,
decoding the frame produced by `_make_message` returns exactly the original
type and payload. -/
theorem encode_decode_roundtrip (t : Nat) (p : Bytes)
    (ht : valid_type t = true) (hp : p.length ≤ 10 * 1024 * 1024) :
    decode_frame (make_message t p) = some (t, p) := by
  have hlen : ((p.length / 16777216 % 256 * 256 + p.length / 65536 % 256) * 256 +
      p.length / 256 % 256) * 256 + p.length % 256 = p.length := by omega
  simp only [make_message, be32, List.cons_append, List.nil_append, decode_frame, hlen, ht,
    if_true]
  have h1 : ¬(p.length > 10 * 1024 * 1024) := by omega
  have h2 : ¬(p.length < p.length) := by omega
  simp [h1, h2]

/-- Witness for C9 at type HEARTBEAT and payload `[1, 2, 3]`. -/
theorem encode_decode_roundtrip_witness :
    decode_frame (make_message 7 [1, 2, 3]) = some (7, [1, 2, 3]) :=
  encode_decode_roundtrip 7 [1, 2, 3] (by decide) (by decide)

/-! ## C6 -/

/-- C6: a frame whose length field is exactly 10 MiB is accepted and
dispatched on its payload; a frame whose length field exceeds 10 MiB makes
the read loop terminate the connection, producing no reply and no writes. -/
theorem frame_length_boundary (st : ServerState) (bound : Bytes) (t L : Nat) (payload : Bytes)
    (w : Nat) (ip : Bytes) (port : Nat) (wOk : Bool) (nMs nS : Nat)
    (ht : valid_type t = true) :
    client_step st bound t (10 * 1024 * 1024) payload w ip port wOk nMs nS
      = FrameOutcome.ok (handle_message st bound t payload w ip port wOk nMs nS)
    ∧ (L > 10 * 1024 * 1024 →
        client_step st bound t L payload w ip port wOk nMs nS = FrameOutcome.closed) := by
  constructor
  · simp [client_step, ht]
  · intro hL
    simp [client_step, ht, hL]

/-- Witness for C6: HEARTBEAT frames with length fields 10 MiB and
10 MiB + 1 on a fresh connection. -/
theorem frame_length_boundary_witness :
    client_step ⟨[], [], 0, 0, 0, 0⟩ [] 7 (10 * 1024 * 1024) [] 0 [] 0 true 0 0
      = FrameOutcome.ok (handle_message ⟨[], [], 0, 0, 0, 0⟩ [] 7 [] 0 [] 0 true 0 0)
    ∧ client_step ⟨[], [], 0, 0, 0, 0⟩ [] 7 (10 * 1024 * 1024 + 1) [] 0 [] 0 true 0 0
      = FrameOutcome.closed := by
  have h := frame_length_boundary ⟨[], [], 0, 0, 0, 0⟩ [] 7 (10 * 1024 * 1024 + 1) []
    0 [] 0 true 0 0 (by decide)
  exact ⟨h.1, h.2 (by omega)⟩

/-! ## C2 -/

/-- C2 fails as stated: a frame with the unknown type code 0x09 makes
`MessageType(header[0])` raise, which terminates the connection, instead of
being ignored with the connection left open for later frames. -/
theorem unknown_type_code_c2_counterexample :
    client_step ⟨[], [], 0, 0, 0, 0⟩ [] 9 0 [] 0 [] 0 true 0 0 = FrameOutcome.closed := by
  decide

/-- C2 (amended): a received frame whose 1-byte type code is not one of the
twelve known codes produces no response, but the connection is terminated
rather than kept open, so no subsequent frame on it is processed. -/
theorem unknown_type_code_terminates (st : ServerState) (bound : Bytes) (t len : Nat)
    (payload : Bytes) (w : Nat) (ip : Bytes) (port : Nat) (wOk : Bool) (nMs nS : Nat)
    (ht : valid_type t = false) :
    client_step st bound t len payload w ip port wOk nMs nS = FrameOutcome.closed := by
  simp [client_step, ht]

/-- Witness for the amended C2 at the unknown type code 0x20. -/
theorem unknown_type_code_terminates_witness :
    client_step ⟨[], [], 0, 0, 0, 0⟩ [3] 32 5 [1, 2, 3, 4, 5] 1 [10] 4 true 7 7
      = FrameOutcome.closed :=
  unknown_type_code_terminates ⟨[], [], 0, 0, 0, 0⟩ [3] 32 5 [1, 2, 3, 4, 5] 1 [10] 4
    true 7 7 (by decide)

/-! ## C1 -/

/-- C1 fails on the code: register peer 0x70 in session 0x61, then register
the same peer id in session 0x62.  The displacement discards the id from
session 0x61's set but never deletes the set, so the session index retains
an empty set, contradicting the stated invariant. -/
theorem displacement_leaves_empty_session :
    lookupA (handle_register
        (handle_register ⟨[], [], 0, 0, 0, 0⟩ [1, 112, 1, 97] 1 [127] 5000 0).st
        [1, 112, 1, 98] 1 [127] 5000 1).st.sessions [97]
      = some [] := by
  decide

/-! ## C8 -/

/-- C8: a REGISTER whose payload fails to parse is answered on the same
connection with an ERROR frame carrying the failure message; the peer table,
the session index and the counters are untouched, no notification is sent,
the connection stays unbound, and every later non-REGISTER frame on the
unbound connection is ignored without reply. -/
theorem register_parse_failure_atomic (st : ServerState) (payload e : Bytes)
    (w : Nat) (ip : Bytes) (port nS : Nat)
    (he : parse_register payload = Except.error e) :
    handle_register st payload w ip port nS = ⟨st, make_message 255 e, [], []⟩
    ∧ (∀ t p2 w2 ip2 port2 wOk nMs nS2, t ≠ 1 →
        handle_message st [] t p2 w2 ip2 port2 wOk nMs nS2 = ⟨st, [], none, []⟩) := by
  constructor
  · simp [handle_register, he]
  · intro t p2 w2 ip2 port2 wOk nMs nS2 ht
    simp [handle_message, ht]

/-- Witness for C8: the empty REGISTER payload raises `IndexError`; a DATA
frame on the still-unbound connection is then ignored. -/
theorem register_parse_failure_atomic_witness :
    handle_register ⟨[], [], 0, 0, 0, 0⟩ [] 3 [127] 9 5
      = ⟨⟨[], [], 0, 0, 0, 0⟩, make_message 255 pyGet.ixMsg, [], []⟩
    ∧ handle_message ⟨[], [], 0, 0, 0, 0⟩ [] 6 [2, 8] 0 [] 0 true 0 0
      = ⟨⟨[], [], 0, 0, 0, 0⟩, [], none, []⟩ := by
  have h := register_parse_failure_atomic ⟨[], [], 0, 0, 0, 0⟩ [] pyGet.ixMsg 3 [127] 9 5
    (by rfl)
  exact ⟨h.1, h.2 6 [2, 8] 0 [] 0 true 0 0 (by decide)⟩

/-! ## Relay branch lemmas, shared by the relay claims -/

theorem relay_target_missing (st : ServerState) (sender target data : Bytes) (wOk : Bool)
    (hT : lookupA st.peers target = none) :
    handle_relay_data st sender (target.length :: (target ++ data)) wOk = (st, []) := by
  obtain ⟨h1, h2, h3⟩ := target_payload_parts target data
  simp only [handle_relay_data, h1, h2, h3, hT]

theorem relay_session_mismatch (st : ServerState) (sender target data : Bytes) (wOk : Bool)
    (tp fp : PeerInfo)
    (hT : lookupA st.peers target = some tp)
    (hF : lookupA st.peers sender = some fp)
    (hS : fp.session_code ≠ tp.session_code) :
    handle_relay_data st sender (target.length :: (target ++ data)) wOk = (st, []) := by
  obtain ⟨h1, h2, h3⟩ := target_payload_parts target data
  simp only [handle_relay_data, h1, h2, h3, hT, hF]
  simp [hS]

theorem relay_delivery (st : ServerState) (sender target data : Bytes)
    (tp fp : PeerInfo)
    (hT : lookupA st.peers target = some tp)
    (hF : lookupA st.peers sender = some fp)
    (hS : fp.session_code = tp.session_code) :
    handle_relay_data st sender (target.length :: (target ++ data)) true
      = ({ st with
            total_bytes_relayed := st.total_bytes_relayed + data.length,
            peers := updatePeer st.peers sender
              (fun p => { p with relayed_bytes := p.relayed_bytes + data.length }) },
          [(tp.writer, make_message 6 (sender.length :: sender ++ data))]) := by
  obtain ⟨h1, h2, h3⟩ := target_payload_parts target data
  simp only [handle_relay_data, h1, h2, h3, hT, hF]
  simp [hS, relay_forward]

/-! ## C3 -/

/-- C3: DATA relay semantics.  With payload `target_id_len | target_id |
opaque_bytes` from a registered sender: an absent target means nothing is
sent and the state is unchanged; a session mismatch between the sender's
and target's records means nothing is forwarded; otherwise the target's
writer receives one DATA frame `from_id_len | from_id | opaque_bytes`, and
on a successful write the global and the sender's per-peer byte counters
each grow by the opaque length.  The DATA dispatch never replies to the
sender. -/
theorem data_relay_semantics (st : ServerState) (sender target data : Bytes) (wOk : Bool)
    (_hlen : target.length ≤ 255) :
    (lookupA st.peers target = none →
      handle_relay_data st sender (target.length :: (target ++ data)) wOk = (st, []))
    ∧ (∀ tp fp, lookupA st.peers target = some tp → lookupA st.peers sender = some fp →
        fp.session_code ≠ tp.session_code →
        handle_relay_data st sender (target.length :: (target ++ data)) wOk = (st, []))
    ∧ (∀ tp fp, lookupA st.peers target = some tp → lookupA st.peers sender = some fp →
        fp.session_code = tp.session_code →
        ∃ st', handle_relay_data st sender (target.length :: (target ++ data)) true
            = (st', [(tp.writer, make_message 6 (sender.length :: sender ++ data))])
          ∧ st'.total_bytes_relayed = st.total_bytes_relayed + data.length
          ∧ lookupA st'.peers sender
              = some { fp with relayed_bytes := fp.relayed_bytes + data.length }
          ∧ st'.sessions = st.sessions)
    ∧ (∀ w ip port nMs nS, sender ≠ [] →
        (handle_message st sender 6 (target.length :: (target ++ data))
          w ip port wOk nMs nS).reply = none) := by
  refine ⟨?_, ?_, ?_, ?_⟩
  · intro hT
    exact relay_target_missing st sender target data wOk hT
  · intro tp fp hT hF hS
    exact relay_session_mismatch st sender target data wOk tp fp hT hF hS
  · intro tp fp hT hF hS
    refine ⟨_, relay_delivery st sender target data tp fp hT hF hS, rfl, ?_, rfl⟩
    rw [lookupA_updatePeer_self, hF]
    rfl
  · intro w ip port nMs nS hs
    simp [handle_message, hs]

/-- Witness for C3: two peers 0x61 and 0x62 in session 0x73, relaying the
two bytes `0x48 0x69`, plus an absent-target and a cross-session case. -/
theorem data_relay_semantics_witness :
    (handle_relay_data
        ⟨[([97], ⟨[97], [115], 1, [10], 70, [], 0, 0, 0, NatType.unknown, 0⟩),
          ([98], ⟨[98], [115], 2, [11], 71, [], 0, 0, 0, NatType.unknown, 0⟩),
          ([99], ⟨[99], [116], 3, [12], 72, [], 0, 0, 0, NatType.unknown, 0⟩)],
         [([115], [[97], [98]]), ([116], [[99]])], 3, 0, 0, 2⟩
        [97] [1, 98, 72, 105] true).2
      = [(2, make_message 6 [1, 97, 72, 105])]
    ∧ (handle_relay_data
        ⟨[([97], ⟨[97], [115], 1, [10], 70, [], 0, 0, 0, NatType.unknown, 0⟩),
          ([98], ⟨[98], [115], 2, [11], 71, [], 0, 0, 0, NatType.unknown, 0⟩),
          ([99], ⟨[99], [116], 3, [12], 72, [], 0, 0, 0, NatType.unknown, 0⟩)],
         [([115], [[97], [98]]), ([116], [[99]])], 3, 0, 0, 2⟩
        [97] [1, 99, 72, 105] true)
      = (⟨[([97], ⟨[97], [115], 1, [10], 70, [], 0, 0, 0, NatType.unknown, 0⟩),
          ([98], ⟨[98], [115], 2, [11], 71, [], 0, 0, 0, NatType.unknown, 0⟩),
          ([99], ⟨[99], [116], 3, [12], 72, [], 0, 0, 0, NatType.unknown, 0⟩)],
         [([115], [[97], [98]]), ([116], [[99]])], 3, 0, 0, 2⟩, []) := by
  constructor
  · have h := (data_relay_semantics
      ⟨[([97], ⟨[97], [115], 1, [10], 70, [], 0, 0, 0, NatType.unknown, 0⟩),
        ([98], ⟨[98], [115], 2, [11], 71, [], 0, 0, 0, NatType.unknown, 0⟩),
        ([99], ⟨[99], [116], 3, [12], 72, [], 0, 0, 0, NatType.unknown, 0⟩)],
       [([115], [[97], [98]]), ([116], [[99]])], 3, 0, 0, 2⟩
      [97] [98] [72, 105] true (by decide)).2.2.1
      ⟨[98], [115], 2, [11], 71, [], 0, 0, 0, NatType.unknown, 0⟩
      ⟨[97], [115], 1, [10], 70, [], 0, 0, 0, NatType.unknown, 0⟩
      (by decide) (by decide) (by decide)
    obtain ⟨st', he, _, _, _⟩ := h
    rw [show ([1, 98, 72, 105] : Bytes)
        = (([98] : Bytes).length :: ([98] ++ [72, 105])) from rfl, he]
    rfl
  · have h := (data_relay_semantics
      ⟨[([97], ⟨[97], [115], 1, [10], 70, [], 0, 0, 0, NatType.unknown, 0⟩),
        ([98], ⟨[98], [115], 2, [11], 71, [], 0, 0, 0, NatType.unknown, 0⟩),
        ([99], ⟨[99], [116], 3, [12], 72, [], 0, 0, 0, NatType.unknown, 0⟩)],
       [([115], [[97], [98]]), ([116], [[99]])], 3, 0, 0, 2⟩
      [97] [99] [72, 105] true (by decide)).2.1
      ⟨[99], [116], 3, [12], 72, [], 0, 0, 0, NatType.unknown, 0⟩
      ⟨[97], [115], 1, [10], 70, [], 0, 0, 0, NatType.unknown, 0⟩
      (by decide) (by decide) (by decide)
    rw [show ([1, 99, 72, 105] : Bytes)
        = (([99] : Bytes).length :: ([99] ++ [72, 105])) from rfl, h]

/-! ## CONNECT and PUNCH_REQUEST branch lemmas -/

theorem connect_payload_parts (target : Bytes) :
    pyGet (target.length :: target) 0 = Except.ok target.length
    ∧ pySlice (target.length :: target) 1 target.length = target :=
  ⟨rfl, pySlice_concat_nil [target.length] target rfl rfl⟩

theorem connect_target_missing (st : ServerState) (sender target : Bytes)
    (hT : lookupA st.peers target = none) :
    handle_connect_request st sender (target.length :: target)
      = ⟨st, make_message 255 errPeerNotFound, []⟩ := by
  obtain ⟨h1, h2⟩ := connect_payload_parts target
  simp only [handle_connect_request, h1, h2, hT]

theorem connect_not_registered (st : ServerState) (sender target : Bytes) (tp : PeerInfo)
    (hT : lookupA st.peers target = some tp)
    (hF : lookupA st.peers sender = none) :
    handle_connect_request st sender (target.length :: target)
      = ⟨st, make_message 255 errNotRegistered, []⟩ := by
  obtain ⟨h1, h2⟩ := connect_payload_parts target
  simp only [handle_connect_request, h1, h2, hT, hF]

theorem connect_session_mismatch (st : ServerState) (sender target : Bytes) (tp fp : PeerInfo)
    (hT : lookupA st.peers target = some tp)
    (hF : lookupA st.peers sender = some fp)
    (hS : fp.session_code ≠ tp.session_code) :
    handle_connect_request st sender (target.length :: target)
      = ⟨st, make_message 255 errSessionMismatch, []⟩ := by
  obtain ⟨h1, h2⟩ := connect_payload_parts target
  simp only [handle_connect_request, h1, h2, hT, hF]
  simp [hS]

theorem connect_introduction (st : ServerState) (sender target : Bytes) (tp fp : PeerInfo)
    (hT : lookupA st.peers target = some tp)
    (hF : lookupA st.peers sender = some fp)
    (hS : fp.session_code = tp.session_code) :
    handle_connect_request st sender (target.length :: target)
      = ⟨{ st with total_introductions := st.total_introductions + 1 },
          make_message 5 (endpoint_desc target tp),
          [(tp.writer, make_message 4 (endpoint_desc sender fp))]⟩ := by
  obtain ⟨h1, h2⟩ := connect_payload_parts target
  simp only [handle_connect_request, h1, h2, hT, hF]
  simp [hS]

theorem punch_no_session_guard (st : ServerState) (sender target : Bytes) (tp fp : PeerInfo)
    (nMs : Nat)
    (hT : lookupA st.peers target = some tp)
    (hF : lookupA st.peers sender = some fp) :
    handle_punch_request st sender (target.length :: target) nMs
      = ⟨st, make_message 17 (punch_sync_payload (nMs + 500) tp),
          [(tp.writer, make_message 17 (punch_sync_payload (nMs + 500) fp))]⟩ := by
  obtain ⟨h1, h2⟩ := connect_payload_parts target
  simp only [handle_punch_request, h1, h2, hT, hF]

theorem peer_list_entries_from_session (st : ServerState) (req sc : Bytes) :
    ∀ p ∈ peer_list_entries st req sc,
      ∃ pid, pid ∈ (lookupA st.sessions sc).getD [] ∧ pid ≠ req ∧
        lookupA st.peers pid = some p := by
  intro p hp
  unfold peer_list_entries at hp
  rw [List.mem_filterMap] at hp
  obtain ⟨pid, hmem, hf⟩ := hp
  by_cases h : pid ≠ req
  · rw [if_pos h] at hf
    exact ⟨pid, hmem, h, hf⟩
  · rw [if_neg h] at hf
    exact Option.noConfusion hf

/-! ## C5 -/

/-- C5: CONNECT semantics with payload `target_id_len | target_id`: absent
target replies ERROR "Peer not found"; absent requester record replies
ERROR "Not registered"; differing session codes reply ERROR
"Session mismatch"; otherwise the target's writer receives a CONNECT frame
describing the requester, the reply is a CONNECT_ACK describing the target
in the same layout, and `total_introductions` grows by one. -/
theorem connect_request_semantics (st : ServerState) (sender target : Bytes)
    (_hlen : target.length ≤ 255) :
    (lookupA st.peers target = none →
      handle_connect_request st sender (target.length :: target)
        = ⟨st, make_message 255 errPeerNotFound, []⟩)
    ∧ (∀ tp, lookupA st.peers target = some tp → lookupA st.peers sender = none →
        handle_connect_request st sender (target.length :: target)
          = ⟨st, make_message 255 errNotRegistered, []⟩)
    ∧ (∀ tp fp, lookupA st.peers target = some tp → lookupA st.peers sender = some fp →
        fp.session_code ≠ tp.session_code →
        handle_connect_request st sender (target.length :: target)
          = ⟨st, make_message 255 errSessionMismatch, []⟩)
    ∧ (∀ tp fp, lookupA st.peers target = some tp → lookupA st.peers sender = some fp →
        fp.session_code = tp.session_code →
        handle_connect_request st sender (target.length :: target)
          = ⟨{ st with total_introductions := st.total_introductions + 1 },
              make_message 5 (endpoint_desc target tp),
              [(tp.writer, make_message 4 (endpoint_desc sender fp))]⟩) := by
  refine ⟨?_, ?_, ?_, ?_⟩
  · intro hT
    exact connect_target_missing st sender target hT
  · intro tp hT hF
    exact connect_not_registered st sender target tp hT hF
  · intro tp fp hT hF hS
    exact connect_session_mismatch st sender target tp fp hT hF hS
  · intro tp fp hT hF hS
    exact connect_introduction st sender target tp fp hT hF hS

/-- Witness for C5: peer 0x61 connects to its session mate 0x62, which has a
private endpoint, and to the unknown id 0x5A. -/
theorem connect_request_semantics_witness :
    handle_connect_request
      ⟨[([97], ⟨[97], [115], 1, [10], 70, [], 0, 0, 0, NatType.unknown, 0⟩),
        ([98], ⟨[98], [115], 2, [11], 71, [192], 800, 0, 0, NatType.unknown, 0⟩)],
       [([115], [[97], [98]])], 2, 0, 0, 1⟩
      [97] [1, 98]
      = ⟨⟨[([97], ⟨[97], [115], 1, [10], 70, [], 0, 0, 0, NatType.unknown, 0⟩),
          ([98], ⟨[98], [115], 2, [11], 71, [192], 800, 0, 0, NatType.unknown, 0⟩)],
         [([115], [[97], [98]])], 2, 0, 1, 1⟩,
         make_message 5 (endpoint_desc [98] ⟨[98], [115], 2, [11], 71, [192], 800, 0, 0, NatType.unknown, 0⟩),
         [(2, make_message 4 (endpoint_desc [97] ⟨[97], [115], 1, [10], 70, [], 0, 0, 0, NatType.unknown, 0⟩))]⟩
    ∧ handle_connect_request
      ⟨[([97], ⟨[97], [115], 1, [10], 70, [], 0, 0, 0, NatType.unknown, 0⟩),
        ([98], ⟨[98], [115], 2, [11], 71, [192], 800, 0, 0, NatType.unknown, 0⟩)],
       [([115], [[97], [98]])], 2, 0, 0, 1⟩
      [97] [1, 90]
      = ⟨⟨[([97], ⟨[97], [115], 1, [10], 70, [], 0, 0, 0, NatType.unknown, 0⟩),
          ([98], ⟨[98], [115], 2, [11], 71, [192], 800, 0, 0, NatType.unknown, 0⟩)],
         [([115], [[97], [98]])], 2, 0, 0, 1⟩, make_message 255 errPeerNotFound, []⟩ := by
  constructor
  · have h := (connect_request_semantics
      ⟨[([97], ⟨[97], [115], 1, [10], 70, [], 0, 0, 0, NatType.unknown, 0⟩),
        ([98], ⟨[98], [115], 2, [11], 71, [192], 800, 0, 0, NatType.unknown, 0⟩)],
       [([115], [[97], [98]])], 2, 0, 0, 1⟩
      [97] [98] (by decide)).2.2.2
      ⟨[98], [115], 2, [11], 71, [192], 800, 0, 0, NatType.unknown, 0⟩
      ⟨[97], [115], 1, [10], 70, [], 0, 0, 0, NatType.unknown, 0⟩
      (by decide) (by decide) (by decide)
    rw [show ([1, 98] : Bytes) = (([98] : Bytes).length :: [98]) from rfl, h]
  · have h := (connect_request_semantics
      ⟨[([97], ⟨[97], [115], 1, [10], 70, [], 0, 0, 0, NatType.unknown, 0⟩),
        ([98], ⟨[98], [115], 2, [11], 71, [192], 800, 0, 0, NatType.unknown, 0⟩)],
       [([115], [[97], [98]])], 2, 0, 0, 1⟩
      [97] [90] (by decide)).1 (by decide)
    rw [show ([1, 90] : Bytes) = (([90] : Bytes).length :: [90]) from rfl, h]

/-! ## C4 -/

/-- C4 fails as stated: peer 0x61 (session 0x73) sends PUNCH_REQUEST for
peer 0x62 (session 0x74).  Despite the differing session codes the handler
replies with a PUNCH_SYNC frame carrying 0x62's public endpoint and pushes
0x61's endpoint to 0x62 — `_handle_punch_request` has no session guard. -/
theorem punch_cross_session_counterexample :
    handle_punch_request
      ⟨[([97], ⟨[97], [115], 1, [10], 70, [], 0, 0, 0, NatType.unknown, 0⟩),
        ([98], ⟨[98], [116], 2, [11], 71, [], 0, 0, 0, NatType.unknown, 0⟩)],
       [([115], [[97]]), ([116], [[98]])], 2, 0, 0, 2⟩
      [97] [1, 98] 1000
      = ⟨⟨[([97], ⟨[97], [115], 1, [10], 70, [], 0, 0, 0, NatType.unknown, 0⟩),
          ([98], ⟨[98], [116], 2, [11], 71, [], 0, 0, 0, NatType.unknown, 0⟩)],
         [([115], [[97]]), ([116], [[98]])], 2, 0, 0, 2⟩,
         [17, 0, 0, 0, 12, 0, 0, 0, 0, 0, 0, 5, 220, 1, 11, 0, 71],
         [(2, [17, 0, 0, 0, 12, 0, 0, 0, 0, 0, 0, 5, 220, 1, 10, 0, 70])]⟩ := by
  decide

/-- C4 (amended): session-scoped visibility holds for CONNECT (ERROR
"Session mismatch", nothing forwarded), for DATA relay (silent drop), and
for PEER_LIST (every disclosed record comes from an id in the requester's
own session set); but PUNCH_REQUEST discloses both peers' public endpoints
and forwards PUNCH_SYNC frames regardless of session membership. -/
theorem session_scoped_visibility_amended (st : ServerState) (a b : Bytes)
    (fa fb : PeerInfo) (nMs : Nat)
    (ha : lookupA st.peers a = some fa) (hb : lookupA st.peers b = some fb)
    (hs : fa.session_code ≠ fb.session_code) :
    handle_connect_request st a (b.length :: b)
      = ⟨st, make_message 255 errSessionMismatch, []⟩
    ∧ (∀ data wOk, handle_relay_data st a (b.length :: (b ++ data)) wOk = (st, []))
    ∧ (∀ p ∈ peer_list_entries st a fa.session_code,
        ∃ pid, pid ∈ (lookupA st.sessions fa.session_code).getD [] ∧ pid ≠ a ∧
          lookupA st.peers pid = some p)
    ∧ handle_punch_request st a (b.length :: b) nMs
      = ⟨st, make_message 17 (punch_sync_payload (nMs + 500) fb),
          [(fb.writer, make_message 17 (punch_sync_payload (nMs + 500) fa))]⟩ := by
  refine ⟨?_, ?_, ?_, ?_⟩
  · exact connect_session_mismatch st a b fb fa hb ha hs
  · intro data wOk
    exact relay_session_mismatch st a b data wOk fb fa hb ha hs
  · exact peer_list_entries_from_session st a fa.session_code
  · exact punch_no_session_guard st a b fb fa nMs hb ha

/-- Witness for the amended C4 on a concrete two-peer, two-session state. -/
theorem session_scoped_visibility_amended_witness :
    handle_connect_request
      ⟨[([97], ⟨[97], [115], 1, [10], 70, [], 0, 0, 0, NatType.unknown, 0⟩),
        ([98], ⟨[98], [116], 2, [11], 71, [], 0, 0, 0, NatType.unknown, 0⟩)],
       [([115], [[97]]), ([116], [[98]])], 2, 0, 0, 2⟩
      [97] [1, 98]
      = ⟨⟨[([97], ⟨[97], [115], 1, [10], 70, [], 0, 0, 0, NatType.unknown, 0⟩),
          ([98], ⟨[98], [116], 2, [11], 71, [], 0, 0, 0, NatType.unknown, 0⟩)],
         [([115], [[97]]), ([116], [[98]])], 2, 0, 0, 2⟩,
         make_message 255 errSessionMismatch, []⟩
    ∧ handle_relay_data
      ⟨[([97], ⟨[97], [115], 1, [10], 70, [], 0, 0, 0, NatType.unknown, 0⟩),
        ([98], ⟨[98], [116], 2, [11], 71, [], 0, 0, 0, NatType.unknown, 0⟩)],
       [([115], [[97]]), ([116], [[98]])], 2, 0, 0, 2⟩
      [97] [1, 98, 5] true
      = (⟨[([97], ⟨[97], [115], 1, [10], 70, [], 0, 0, 0, NatType.unknown, 0⟩),
          ([98], ⟨[98], [116], 2, [11], 71, [], 0, 0, 0, NatType.unknown, 0⟩)],
         [([115], [[97]]), ([116], [[98]])], 2, 0, 0, 2⟩, []) := by
  have h := session_scoped_visibility_amended
    ⟨[([97], ⟨[97], [115], 1, [10], 70, [], 0, 0, 0, NatType.unknown, 0⟩),
      ([98], ⟨[98], [116], 2, [11], 71, [], 0, 0, 0, NatType.unknown, 0⟩)],
     [([115], [[97]]), ([116], [[98]])], 2, 0, 0, 2⟩
    [97] [98]
    ⟨[97], [115], 1, [10], 70, [], 0, 0, 0, NatType.unknown, 0⟩
    ⟨[98], [116], 2, [11], 71, [], 0, 0, 0, NatType.unknown, 0⟩
    3 (by decide) (by decide) (by decide)
  constructor
  · have h1 := h.1
    rw [show ([1, 98] : Bytes) = (([98] : Bytes).length :: [98]) from rfl, h1]
  · have h2 := h.2.1 [5] true
    rw [show ([1, 98, 5] : Bytes) = (([98] : Bytes).length :: ([98] ++ [5])) from rfl, h2]

/-! ## REGISTER payload parsing lemmas -/

theorem parse_register_no_optional (pid sc : Bytes) :
    parse_register (pid.length :: (pid ++ sc.length :: sc)) = Except.ok (pid, sc, [], 0) := by
  have g1 : pyGet (pid.length :: (pid ++ sc.length :: sc)) 0 = Except.ok pid.length := rfl
  have g2 : pySlice (pid.length :: (pid ++ sc.length :: sc)) 1 pid.length = pid := by
    exact pySlice_concat [pid.length] pid (sc.length :: sc) rfl rfl
  have g3 : pyGet (pid.length :: (pid ++ sc.length :: sc)) (1 + pid.length)
      = Except.ok sc.length := by
    have e2 : (pid.length :: (pid ++ sc.length :: sc) : Bytes)
        = (pid.length :: pid) ++ (sc.length :: sc) := by simp
    rw [e2]
    exact pyGet_concat (pid.length :: pid) sc.length sc (by simp [Nat.add_comm])
  have g4 : pySlice (pid.length :: (pid ++ sc.length :: sc)) (1 + pid.length + 1) sc.length
      = sc := by
    have e3 : (pid.length :: (pid ++ sc.length :: sc) : Bytes)
        = (pid.length :: (pid ++ [sc.length])) ++ sc := by simp
    rw [e3]
    refine pySlice_concat_nil (pid.length :: (pid ++ [sc.length])) sc ?_ rfl
    simp only [List.length_cons, List.length_append]
    simp
    omega
  have hc : ¬(1 + pid.length + 1 + sc.length
      < (pid.length :: (pid ++ sc.length :: sc) : Bytes).length) := by
    simp only [List.length_cons, List.length_append]
    omega
  simp only [parse_register, g1, g2, g3, g4]
  rw [if_neg hc]

theorem parse_register_with_optional (pid sc pip : Bytes) (pport : Nat)
    (hpp : pport < 65536) :
    parse_register
        (pid.length :: (pid ++ sc.length :: (sc ++ pip.length :: (pip ++ be16 pport))))
      = Except.ok (pid, sc, pip, pport) := by
  set payload : Bytes :=
    pid.length :: (pid ++ sc.length :: (sc ++ pip.length :: (pip ++ be16 pport))) with hpay
  have g1 : pyGet payload 0 = Except.ok pid.length := rfl
  have g2 : pySlice payload 1 pid.length = pid := by
    rw [hpay]
    exact pySlice_concat [pid.length] pid (sc.length :: (sc ++ pip.length :: (pip ++ be16 pport))) rfl rfl
  have g3 : pyGet payload (1 + pid.length) = Except.ok sc.length := by
    have e2 : payload = (pid.length :: pid) ++ (sc.length :: (sc ++ pip.length :: (pip ++ be16 pport))) := by
      rw [hpay]; simp
    rw [e2]
    exact pyGet_concat (pid.length :: pid) sc.length _ (by simp [Nat.add_comm])
  have g4 : pySlice payload (1 + pid.length + 1) sc.length = sc := by
    have e3 : payload
        = (pid.length :: (pid ++ [sc.length])) ++ (sc ++ pip.length :: (pip ++ be16 pport)) := by
      rw [hpay]; simp
    rw [e3]
    refine pySlice_concat (pid.length :: (pid ++ [sc.length])) sc _ ?_ rfl
    simp only [List.length_cons, List.length_append]
    simp
    omega
  have g5 : pyGet payload (1 + pid.length + 1 + sc.length) = Except.ok pip.length := by
    have e5 : payload
        = (pid.length :: (pid ++ sc.length :: sc)) ++ (pip.length :: (pip ++ be16 pport)) := by
      rw [hpay]; simp
    rw [e5]
    refine pyGet_concat (pid.length :: (pid ++ sc.length :: sc)) pip.length _ ?_
    simp only [List.length_cons, List.length_append]
    omega
  have g6 : pySlice payload (1 + pid.length + 1 + sc.length + 1) pip.length = pip := by
    have e6 : payload
        = (pid.length :: (pid ++ sc.length :: (sc ++ [pip.length]))) ++ (pip ++ be16 pport) := by
      rw [hpay]; simp
    rw [e6]
    refine pySlice_concat (pid.length :: (pid ++ sc.length :: (sc ++ [pip.length]))) pip
      (be16 pport) ?_ rfl
    simp only [List.length_cons, List.length_append]
    simp
    omega
  have g7 : pyGet payload (1 + pid.length + 1 + sc.length + 1 + pip.length)
      = Except.ok (pport / 256 % 256) := by
    have e7 : payload
        = (pid.length :: (pid ++ sc.length :: (sc ++ pip.length :: pip)))
          ++ ((pport / 256 % 256) :: [pport % 256]) := by
      rw [hpay]; simp [be16]
    rw [e7]
    refine pyGet_concat (pid.length :: (pid ++ sc.length :: (sc ++ pip.length :: pip)))
      (pport / 256 % 256) _ ?_
    simp only [List.length_cons, List.length_append]
    omega
  have g8 : pyGet payload (1 + pid.length + 1 + sc.length + 1 + pip.length + 1)
      = Except.ok (pport % 256) := by
    have e8 : payload
        = (pid.length :: (pid ++ sc.length :: (sc ++ pip.length :: (pip ++ [pport / 256 % 256]))))
          ++ ((pport % 256) :: []) := by
      rw [hpay]; simp [be16]
    rw [e8]
    refine pyGet_concat _ (pport % 256) _ ?_
    simp only [List.length_cons, List.length_append]
    simp
    omega
  have hlen : payload.length
      = 1 + pid.length + 1 + sc.length + 1 + pip.length + 2 := by
    rw [hpay]
    simp only [List.length_cons, List.length_append, be16, List.length_nil]
    omega
  have hc1 : 1 + pid.length + 1 + sc.length < payload.length := by omega
  have hc2 : payload.length > 1 + pid.length + 1 + sc.length := by omega
  have hc3 : payload.length ≥ 1 + pid.length + 1 + sc.length + 1 + pip.length + 2 := by omega
  have hval : pport / 256 % 256 * 256 + pport % 256 = pport := by omega
  simp only [parse_register, g1, g2, g3, g4, g5, g6, g7, g8, hc1, hc2, hc3, if_true, hval,
    ge_iff_le, gt_iff_lt]

theorem handle_register_ok_record (st : ServerState) (payload pid sc pip : Bytes)
    (pport w : Nat) (ip : Bytes) (port nS : Nat)
    (h : parse_register payload = Except.ok (pid, sc, pip, pport)) :
    (handle_register st payload w ip port nS).bound = pid
    ∧ (handle_register st payload w ip port nS).reply = make_message 2 okMsg
    ∧ lookupA (handle_register st payload w ip port nS).st.peers pid
        = some ⟨pid, sc, w, ip, port, pip, pport, nS, nS, NatType.unknown, 0⟩ := by
  simp only [handle_register, h]
  refine ⟨trivial, trivial, ?_⟩
  simp only [register_state]
  exact lookupA_insertA_self _ pid _

/-! ## C7 -/

/-- C7: REGISTER payloads laid out exactly as
`peer_id_len | peer_id | session_code_len | session_code` — optionally
followed by `priv_ip_len | priv_ip | priv_port(2B, BE)` — parse in full:
the base layout yields an empty private endpoint with port 0, the extended
layout yields the given private endpoint, and the record created for any
successfully parsed payload carries exactly the parsed fields. -/
theorem register_payload_parsing (st : ServerState) (pid sc pip : Bytes) (pport w : Nat)
    (ip : Bytes) (port nS : Nat)
    (_hpid : pid.length ≤ 255) (_hsc : sc.length ≤ 255) (_hpip : pip.length ≤ 255)
    (hpp : pport < 65536) :
    parse_register (pid.length :: (pid ++ sc.length :: sc)) = Except.ok (pid, sc, [], 0)
    ∧ parse_register
        (pid.length :: (pid ++ sc.length :: (sc ++ pip.length :: (pip ++ be16 pport))))
      = Except.ok (pid, sc, pip, pport)
    ∧ (∀ payload, parse_register payload = Except.ok (pid, sc, pip, pport) →
        (handle_register st payload w ip port nS).bound = pid
        ∧ (handle_register st payload w ip port nS).reply = make_message 2 okMsg
        ∧ lookupA (handle_register st payload w ip port nS).st.peers pid
            = some ⟨pid, sc, w, ip, port, pip, pport, nS, nS, NatType.unknown, 0⟩) := by
  refine ⟨parse_register_no_optional pid sc, parse_register_with_optional pid sc pip pport hpp, ?_⟩
  intro payload h
  exact handle_register_ok_record st payload pid sc pip pport w ip port nS h

/-- Witness for C7 with peer id 0x41, session 0x42, private endpoint
(0x43, 258). -/
theorem register_payload_parsing_witness :
    parse_register [1, 65, 1, 66] = Except.ok ([65], [66], [], 0)
    ∧ parse_register [1, 65, 1, 66, 1, 67, 1, 2] = Except.ok ([65], [66], [67], 258)
    ∧ lookupA (handle_register ⟨[], [], 0, 0, 0, 0⟩ [1, 65, 1, 66, 1, 67, 1, 2]
        9 [127] 4000 11).st.peers [65]
      = some ⟨[65], [66], 9, [127], 4000, [67], 258, 11, 11, NatType.unknown, 0⟩ := by
  have h := register_payload_parsing ⟨[], [], 0, 0, 0, 0⟩ [65] [66] [67] 258 9 [127] 4000 11
    (by decide) (by decide) (by decide) (by decide)
  refine ⟨h.1, h.2.1, ?_⟩
  exact (h.2.2 [1, 65, 1, 66, 1, 67, 1, 2] h.2.1).2.2

/-! ## C10 -/

/-- C10: a connection bound to peer `p` that sends REGISTER naming a
different, fresh id `q` is accepted: the handler identity rebinds to `q`,
`q`'s record is inserted, while `p`'s record — still holding the same write
handle — stays in the peer table and `p` stays in its session's set; `p` is
only removed when the standard removal path (janitor eviction or a closing
connection bound to `p`) later runs, which does delete `p`'s record. -/
theorem reregister_keeps_old_record (st : ServerState) (p q sc2 : Bytes) (pinfo : PeerInfo)
    (w : Nat) (ip : Bytes) (port : Nat) (wOk : Bool) (nMs nS : Nat)
    (hp : lookupA st.peers p = some pinfo)
    (hps : p ∈ (lookupA st.sessions pinfo.session_code).getD [])
    (hq : lookupA st.peers q = none) (hqp : q ≠ p) :
    (handle_message st p 1 (q.length :: (q ++ sc2.length :: sc2)) w ip port wOk nMs nS).bound = q
    ∧ lookupA (handle_message st p 1 (q.length :: (q ++ sc2.length :: sc2))
        w ip port wOk nMs nS).st.peers p = some pinfo
    ∧ lookupA (handle_message st p 1 (q.length :: (q ++ sc2.length :: sc2))
        w ip port wOk nMs nS).st.peers q
      = some ⟨q, sc2, w, ip, port, [], 0, nS, nS, NatType.unknown, 0⟩
    ∧ p ∈ (lookupA (handle_message st p 1 (q.length :: (q ++ sc2.length :: sc2))
        w ip port wOk nMs nS).st.sessions pinfo.session_code).getD []
    ∧ lookupA (remove_peer (handle_message st p 1 (q.length :: (q ++ sc2.length :: sc2))
        w ip port wOk nMs nS).st p).1.peers p = none := by
  have hmsg : handle_message st p 1 (q.length :: (q ++ sc2.length :: sc2)) w ip port wOk nMs nS
      = ⟨(handle_register st (q.length :: (q ++ sc2.length :: sc2)) w ip port nS).st,
         (handle_register st (q.length :: (q ++ sc2.length :: sc2)) w ip port nS).bound,
         some (handle_register st (q.length :: (q ++ sc2.length :: sc2)) w ip port nS).reply,
         (handle_register st (q.length :: (q ++ sc2.length :: sc2)) w ip port nS).sends⟩ := by
    simp [handle_message]
  have hreg : handle_register st (q.length :: (q ++ sc2.length :: sc2)) w ip port nS
      = ⟨register_state st q sc2 ⟨q, sc2, w, ip, port, [], 0, nS, nS, NatType.unknown, 0⟩,
         make_message 2 okMsg, q,
         notify_session_peers
           (register_state st q sc2 ⟨q, sc2, w, ip, port, [], 0, nS, nS, NatType.unknown, 0⟩)
           sc2 q ⟨q, sc2, w, ip, port, [], 0, nS, nS, NatType.unknown, 0⟩⟩ := by
    simp only [handle_register, parse_register_no_optional]
  have hregst : register_state st q sc2 ⟨q, sc2, w, ip, port, [], 0, nS, nS, NatType.unknown, 0⟩
      = { st with
          peers := insertA st.peers q ⟨q, sc2, w, ip, port, [], 0, nS, nS, NatType.unknown, 0⟩,
          sessions := insertA st.sessions sc2
            (set_add ((lookupA st.sessions sc2).getD []) q),
          active_sessions := (insertA st.sessions sc2
            (set_add ((lookupA st.sessions sc2).getD []) q)).length } := by
    simp only [register_state, hq]
  have hpP : lookupA (insertA st.peers q
      ⟨q, sc2, w, ip, port, [], 0, nS, nS, NatType.unknown, 0⟩) p = some pinfo := by
    rw [lookupA_insertA_ne st.peers q p _ (fun hh => hqp hh.symm)]
    exact hp
  rw [hmsg, hreg, hregst]
  refine ⟨rfl, hpP, lookupA_insertA_self _ q _, ?_, ?_⟩
  · by_cases hsc : sc2 = pinfo.session_code
    · subst hsc
      rw [lookupA_insertA_self]
      exact mem_set_add_of_mem q hps
    · rw [lookupA_insertA_ne st.sessions sc2 pinfo.session_code _ (fun hh => hsc hh.symm)]
      exact hps
  · simp only [remove_peer, hpP]
    exact lookupA_eraseA_self _ p

/-- Witness for C10: the connection bound to 0x70 (session 0x61) registers
the fresh id 0x71 under session 0x62. -/
theorem reregister_keeps_old_record_witness :
    (handle_message
      ⟨[([112], ⟨[112], [97], 1, [127], 5000, [], 0, 0, 0, NatType.unknown, 0⟩)],
       [([97], [[112]])], 1, 0, 0, 1⟩
      [112] 1 [1, 113, 1, 98] 1 [127] 5000 true 0 2).bound = [113]
    ∧ lookupA (handle_message
      ⟨[([112], ⟨[112], [97], 1, [127], 5000, [], 0, 0, 0, NatType.unknown, 0⟩)],
       [([97], [[112]])], 1, 0, 0, 1⟩
      [112] 1 [1, 113, 1, 98] 1 [127] 5000 true 0 2).st.peers [112]
      = some ⟨[112], [97], 1, [127], 5000, [], 0, 0, 0, NatType.unknown, 0⟩
    ∧ [112] ∈ (lookupA (handle_message
      ⟨[([112], ⟨[112], [97], 1, [127], 5000, [], 0, 0, 0, NatType.unknown, 0⟩)],
       [([97], [[112]])], 1, 0, 0, 1⟩
      [112] 1 [1, 113, 1, 98] 1 [127] 5000 true 0 2).st.sessions [97]).getD [] := by
  have h := reregister_keeps_old_record
    ⟨[([112], ⟨[112], [97], 1, [127], 5000, [], 0, 0, 0, NatType.unknown, 0⟩)],
     [([97], [[112]])], 1, 0, 0, 1⟩
    [112] [113] [98]
    ⟨[112], [97], 1, [127], 5000, [], 0, 0, 0, NatType.unknown, 0⟩
    1 [127] 5000 true 0 2 (by decide) (by decide) (by decide) (by decide)
  exact ⟨h.1, h.2.1, h.2.2.2.1⟩
